import Mathlib

/-!
Verification development for the singularity DNS-rebinding server
(`singularity.go`).

The Go source is shallowly embedded: strings are lists of characters
(`Str`), Go `time.Time` values are `Int` nanosecond timestamps with `0`
standing for Go's zero `time.Time`, the session map guarded by the
`DNSClientStateStore` mutex is an association list, and the DNS / HTTP
request handlers become pure state-transition functions.  Definitions keep
the names of the Go functions they embed.  Go standard-library helpers used
by the source (`strings.Split`, `hex.DecodeString`, `net.ParseIP`,
`net.IP.String`, and the repository's copy of `isDomainName`) are modelled
below with matching semantics for the inputs the server manipulates.
-/

set_option maxRecDepth 20000

/-- Strings are modelled as lists of characters so that every operation is
structurally recursive and kernel-evaluable. -/
abbrev Str := List Char

/-- Converts a Lean string literal to the character-list representation. -/
def lit (s : String) : Str := s.data

/-- Models strings.HasPrefix: s starts with pre. -/
def strStartsWith : Str → Str → Bool
  | _, [] => true
  | [], _ :: _ => false
  | c :: s, p :: ps => c == p && strStartsWith s ps

/-- Index of the first occurrence of `sep` in `s`, if any
(helper for the model of strings.Split). -/
def findSub (sep : Str) : Str → Option Nat
  | [] => if strStartsWith [] sep then some 0 else none
  | c :: rest =>
    if strStartsWith (c :: rest) sep then some 0
    else (findSub sep rest).map (fun n => n + 1)

/-- Fuelled worker for the model of strings.Split; the fuel passed by
`splitOn` always suffices for a non-empty separator. -/
def splitOnFuel (sep : Str) : Nat → Str → List Str
  | 0, s => [s]
  | fuel + 1, s =>
    match findSub sep s with
    | none => [s]
    | some i => s.take i :: splitOnFuel sep fuel (s.drop (i + sep.length))

/-- Models strings.Split: splits on every non-overlapping occurrence of
`sep`, scanning left to right. -/
def splitOn (sep s : Str) : List Str := splitOnFuel sep (s.length + 1) s

/-- Models strings.Cut(s, "."): the part before the first dot, the part
after it, and whether a dot was found. -/
def cutDot : Str → Str × Str × Bool
  | [] => ([], [], false)
  | '.' :: rest => ([], rest, true)
  | c :: rest =>
    let r := cutDot rest
    (c :: r.1, r.2.1, r.2.2)

/-- Models strings.Replace(s, "--", "_", -1): every non-overlapping pair of
dashes becomes one underscore. -/
def replaceDoubleDash : Str → Str
  | '-' :: '-' :: rest => '_' :: replaceDoubleDash rest
  | c :: rest => c :: replaceDoubleDash rest
  | [] => []

/-- Models strings.ToLower for the ASCII names the server handles. -/
def toLowerChar (c : Char) : Char :=
  if 'A' ≤ c ∧ c ≤ 'Z' then Char.ofNat (c.toNat + 32) else c

/-- Lower-cases a query name (strings.ToLower). -/
def toLowerStr (s : Str) : Str := s.map toLowerChar

/-- Value of one hexadecimal digit, if the character is one. -/
def hexDigitVal (c : Char) : Option Nat :=
  if '0' ≤ c ∧ c ≤ '9' then some (c.toNat - '0'.toNat)
  else if 'a' ≤ c ∧ c ≤ 'f' then some (c.toNat - 'a'.toNat + 10)
  else if 'A' ≤ c ∧ c ≤ 'F' then some (c.toNat - 'A'.toNat + 10)
  else none

/-- Models hex.DecodeString: two hex digits per byte; odd length or a
non-hex character is an error (`none`). -/
def decodeHex : Str → Option (List Nat)
  | [] => some []
  | [_] => none
  | a :: b :: rest =>
    match hexDigitVal a, hexDigitVal b, decodeHex rest with
    | some x, some y, some bs => some ((16 * x + y) :: bs)
    | _, _, _ => none

/-- Decimal digits of a byte value (for net.IP.String). -/
def decStr (n : Nat) : Str := Nat.toDigits 10 n

/-- Lowercase hex digits of a 16-bit group, minimal width (for the IPv6
case of net.IP.String). -/
def hexGroupStr (n : Nat) : Str := Nat.toDigits 16 n

/-- Continuous two-digit lowercase hex of a byte list (net/ip.go
hexString, used for byte slices that are not 4 or 16 bytes long). -/
def hexStringOfBytes (bs : List Nat) : Str :=
  (bs.map (fun b => [Nat.digitChar (b / 16 % 16), Nat.digitChar (b % 16)])).flatten

/-- Models net.IP.To4: a 4-byte address, or the IPv4 part of a 16-byte
IPv4-mapped address. -/
def To4 (p : List Nat) : Option (List Nat) :=
  if p.length = 4 then some p
  else
    match p with
    | [0, 0, 0, 0, 0, 0, 0, 0, 0, 0, 255, 255, a, b, c, d] => some [a, b, c, d]
    | _ => none

/-- The 16-bit groups of a 16-byte IPv6 address. -/
def groupsOf16 : List Nat → List Nat
  | a :: b :: rest => (a * 256 + b) :: groupsOf16 rest
  | _ => []

/-- Number of leading zero groups. -/
def countZeroGroups : List Nat → Nat
  | 0 :: rest => countZeroGroups rest + 1
  | _ => 0

/-- Leftmost longest run of at least two zero groups (start, length), as
selected by net.IP.String before inserting the `::` gap. -/
def bestZeroRun (gs : List Nat) : Option (Nat × Nat) :=
  let best := (List.range gs.length).foldl
    (fun acc i =>
      let l := countZeroGroups (gs.drop i)
      if l > acc.2 then (i, l) else acc)
    (0, 0)
  if best.2 ≥ 2 then some best else none

/-- IPv6 textual form of 16-bit groups with RFC 5952 zero compression
(net.IP.String, 16-byte case). -/
def v6String (gs : List Nat) : Str :=
  match bestZeroRun gs with
  | none => List.intercalate (lit ":") (gs.map hexGroupStr)
  | some (s, l) =>
    List.intercalate (lit ":") ((gs.take s).map hexGroupStr) ++ lit "::" ++
      List.intercalate (lit ":") ((gs.drop (s + l)).map hexGroupStr)

/-- Models net.IP.String on a byte list: dotted quad for (possibly mapped)
IPv4, compressed hex for 16-byte IPv6, `<nil>` for empty, and `?` plus raw
hex for any other length. -/
def ipToString (p : List Nat) : Str :=
  if p = [] then lit "<nil>"
  else
    match To4 p with
    | some [a, b, c, d] =>
      decStr a ++ '.' :: decStr b ++ '.' :: decStr c ++ '.' :: decStr d
    | _ =>
      if p.length = 16 then v6String (groupsOf16 p)
      else '?' :: hexStringOfBytes p

/-- First `.` or `:` in the string decides the address family attempted by
net.ParseIP. -/
def firstIPSep : Str → Option Char
  | [] => none
  | c :: rest =>
    if c = '.' then some '.' else if c = ':' then some ':' else firstIPSep rest

/-- One dotted-decimal IPv4 field: digits only, no leading zero, at most
255 (net.ParseIP field rules). -/
def parseV4Field (s : Str) : Option Nat :=
  if s = [] then none
  else if ¬ s.all (fun c => decide ('0' ≤ c ∧ c ≤ '9')) then none
  else if s.length > 1 ∧ s.headD '0' = '0' then none
  else
    let n := s.foldl (fun acc c => acc * 10 + (c.toNat - 48)) 0
    if n ≤ 255 then some n else none

/-- Models the IPv4 half of net.ParseIP; the result is the 16-byte
IPv4-mapped form, as in the Go standard library. -/
def parseIPv4 (s : Str) : Option (List Nat) :=
  match (splitOn (lit ".") s).mapM parseV4Field with
  | some [a, b, c, d] => some [0, 0, 0, 0, 0, 0, 0, 0, 0, 0, 255, 255, a, b, c, d]
  | _ => none

/-- One 16-bit hexadecimal IPv6 group of one to four digits. -/
def parseHexGroup (s : Str) : Option Nat :=
  if s = [] ∨ s.length > 4 then none
  else (s.mapM hexDigitVal).map (fun ds => ds.foldl (fun a d => a * 16 + d) 0)

/-- Bytes of a list of 16-bit groups. -/
def bytesOfGroups (gs : List Nat) : List Nat :=
  (gs.map (fun g => [g / 256 % 256, g % 256])).flatten

/-- Groups on one side of a `::` gap (empty side allowed). -/
def sideGroups (s : Str) : Option (List Nat) :=
  if s = [] then some [] else (splitOn (lit ":") s).mapM parseHexGroup

/-- Models the IPv6 half of net.ParseIP for plain hex-group literals:
either eight groups, or two sides of a single `::` expanding to at least
one zero group.  (Embedded IPv4 tails and zone suffixes do not occur in
this development.) -/
def parseIPv6 (s : Str) : Option (List Nat) :=
  match splitOn (lit "::") s with
  | [one] =>
    match (splitOn (lit ":") one).mapM parseHexGroup with
    | some gs => if gs.length = 8 then some (bytesOfGroups gs) else none
    | none => none
  | [l, r] =>
    match sideGroups l, sideGroups r with
    | some gl, some gr =>
      if gl.length + gr.length ≤ 7 then
        some (bytesOfGroups (gl ++ List.replicate (8 - gl.length - gr.length) 0 ++ gr))
      else none
    | _, _ => none
  | _ => none

/-- Models net.ParseIP: the first separator character selects the family;
the result is a 16-byte address, or `none` when the string is not an IP
literal. -/
def parseIP (s : Str) : Option (List Nat) :=
  match firstIPSep s with
  | some '.' => parseIPv4 s
  | some ':' => parseIPv6 s
  | _ => none

/-- Character loop of the repository's golang.IsDomainName (a copy of the
Go standard library's isDomainName), carrying the previous character, the
non-numeric flag and the current label length. -/
def isDomainNameAux : Str → Char → Bool → Nat → Bool
  | [], last, nonNumeric, partlen =>
    if last = '-' ∨ partlen > 63 then false else nonNumeric
  | c :: rest, last, nonNumeric, partlen =>
    if ('a' ≤ c ∧ c ≤ 'z') ∨ ('A' ≤ c ∧ c ≤ 'Z') ∨ c = '_' then
      isDomainNameAux rest c true (partlen + 1)
    else if '0' ≤ c ∧ c ≤ '9' then
      isDomainNameAux rest c nonNumeric (partlen + 1)
    else if c = '-' then
      if last = '.' then false else isDomainNameAux rest c true (partlen + 1)
    else if c = '.' then
      if last = '.' ∨ last = '-' ∨ partlen > 63 ∨ partlen = 0 then false
      else isDomainNameAux rest c nonNumeric 0
    else false

/-- Models golang.IsDomainName: syntactic validity of a DNS name. -/
def IsDomainName (s : Str) : Bool :=
  let l := s.length
  if l = 0 ∨ l > 254 ∨ (l = 254 ∧ s.getLast? ≠ some '.') then false
  else isDomainNameAux s '.' false 0

/-- DNSQuery is the structured record produced by the query-name codec
(fields as in the Go struct; the zero record has every field empty). -/
structure DNSQuery where
  ResponseIPAddr : Str := []
  ResponseReboundIPAddr : Str := []
  Session : Str := []
  DNSRebindingStrategy : Str := []
  Domain : Str := []
deriving DecidableEq, Repr

/-- The typed parse errors returned by NewDNSQuery, one per `return`
carrying an error in the Go function. -/
inductive ParseErr where
  | noStartTag
  | noEndTag
  | badDomain
  | badFieldCount
  | noHostsDot
  | badHost1Hex
  | badHost2
  | emptySession
deriving DecidableEq, Repr

/-- Models NewDNSQuery: parses an encoded query name of the shape
`s-<hex1>.<hex2|name>-<session>-<strategy>-e.<suffix>` after replacing
each `--` by `_`.  Mirrors the Go control flow exactly, including which
record is returned alongside each error. -/
def NewDNSQuery (qname : Str) : DNSQuery × Option ParseErr :=
  let q1 := replaceDoubleDash qname
  if strStartsWith q1 (lit "s-") = false then ({}, some .noStartTag)
  else
    let q2 := q1.drop 2
    match splitOn (lit "-e.") q2 with
    | [part0, domainSuffix] =>
      if domainSuffix.length < 3 ∧ domainSuffix.contains '.' = false then
        ({}, some .badDomain)
      else
        match splitOn (lit "-") part0 with
        | [f0, f1, f2] =>
          let cut := cutDot f0
          if cut.2.2 = false then ({}, some .noHostsDot)
          else
            match decodeHex cut.1 with
            | none => ({}, some .badHost1Hex)
            | some elem0 =>
              let elem0ip := ipToString elem0
              let h2 : Option Str :=
                match decodeHex cut.2.1 with
                | some elem1 => some (ipToString elem1)
                | none =>
                  if cut.2.1 = lit "localhost" then some (lit "localhost")
                  else
                    let unescaped := (cut.2.1).map (fun c => if c = '_' then '-' else c)
                    if IsDomainName unescaped = false then none else some unescaped
              match h2 with
              | none => ({}, some .badHost2)
              | some elem1Str =>
                if f1.length = 0 then
                  ({ ResponseIPAddr := elem0ip, ResponseReboundIPAddr := elem1Str,
                     Session := f1 }, some .emptySession)
                else
                  ({ ResponseIPAddr := elem0ip, ResponseReboundIPAddr := elem1Str,
                     Session := f1, DNSRebindingStrategy := f2,
                     Domain := '.' :: domainSuffix }, none)
        | _ => ({}, some .badFieldCount)
    | _ => ({}, some .noEndTag)

/-- DNSClientState holds the current rebinding state of one client
session (the Go struct of the same name); timestamps are nanoseconds,
`0` standing for Go's zero time.Time. -/
structure DNSClientState where
  FirstQueryTime : Int := 0
  LastQueryTime : Int := 0
  CurrentQueryTime : Int := 0
  ResponseIPAddr : Str := []
  ResponseReboundIPAddr : Str := []
  LastResponseReboundIPAddr : Nat := 0
  ResponseReboundIPAddrtimeOut : Int := 0
  FirewalledOnce : Bool := false
deriving DecidableEq, Repr

/-- The session map of the DNSClientStateStore, as an association list
with at most one binding per session id. -/
abbrev SessionStore := List (Str × DNSClientState)

/-- Reads `dcss.Sessions[key]`. -/
def findSession : SessionStore → Str → Option DNSClientState
  | [], _ => none
  | (k, v) :: rest, key => if k = key then some v else findSession rest key

/-- Writes `dcss.Sessions[key] = v` (replace or insert). -/
def setSession : SessionStore → Str → DNSClientState → SessionStore
  | [], key, v => [(key, v)]
  | (k, w) :: rest, key, v =>
    if k = key then (key, v) :: rest else (k, w) :: setSession rest key v

/-- Mutates the existing entry at `key` in place, as the Go handlers do
under the write lock; a missing key is left untouched. -/
def adjustSession : SessionStore → Str → (DNSClientState → DNSClientState) → SessionStore
  | [], _, _ => []
  | (k, w) :: rest, key, f =>
    if k = key then (k, f w) :: rest else (k, w) :: adjustSession rest key f

/-- Models DNSClientStateStore.ExpireOldEntries: removes every entry whose
LastQueryTime is non-zero and older than `duration` before `now`
(time.Since(LastQueryTime) > duration); zero-time entries are retained. -/
def ExpireOldEntries : SessionStore → Int → Int → SessionStore
  | [], _, _ => []
  | (k, v) :: rest, now, duration =>
    if v.LastQueryTime ≠ 0 ∧ now - v.LastQueryTime > duration then
      ExpireOldEntries rest now duration
    else (k, v) :: ExpireOldEntries rest now duration

/-- Models DNSRebindFromQueryFirstThenSecond: answers with the rebound
target while CurrentQueryTime − LastQueryTime is under the session's
timeout (in seconds, hence the 1e9 nanosecond factor), and with the
attacker address otherwise.  `none` models the nil-map dereference on a
missing session, which the dispatcher never triggers. -/
def DNSRebindFromQueryFirstThenSecond (session : Str) (dcss : SessionStore) :
    Option (SessionStore × List Str) :=
  (findSession dcss session).map (fun st =>
    let answers := [st.ResponseIPAddr]
    let elapsed := st.CurrentQueryTime - st.LastQueryTime
    let timeOut := st.ResponseReboundIPAddrtimeOut
    let answers := if elapsed < 1000000000 * timeOut then [st.ResponseReboundIPAddr] else answers
    (dcss, answers))

/-- Models DNSRebindFromQueryRandom; `rnd` stands for rand.Intn(2) = 1,
choosing the rebound target instead of the attacker address. -/
def DNSRebindFromQueryRandom (session : Str) (dcss : SessionStore) (rnd : Bool) :
    Option (SessionStore × List Str) :=
  (findSession dcss session).map (fun st =>
    (dcss, [if rnd then st.ResponseReboundIPAddr else st.ResponseIPAddr]))

/-- Models DNSRebindFromQueryRoundRobin: advances LastResponseReboundIPAddr
through 0→1, 1→2, 2→1, persists the new index, and answers
hosts[newIndex] from ["", attacker, rebound]. -/
def DNSRebindFromQueryRoundRobin (session : Str) (dcss : SessionStore) :
    Option (SessionStore × List Str) :=
  (findSession dcss session).map (fun st =>
    let hosts := [[], st.ResponseIPAddr, st.ResponseReboundIPAddr]
    let newIdx :=
      if st.LastResponseReboundIPAddr = 0 then 1
      else if st.LastResponseReboundIPAddr = 1 then 2
      else if st.LastResponseReboundIPAddr = 2 then 1
      else st.LastResponseReboundIPAddr
    (adjustSession dcss session (fun s => { s with LastResponseReboundIPAddr := newIdx }),
     [hosts.getD newIdx []]))

/-- Models DNSRebindFromQueryMultiA: only the rebound target once the
session has been firewalled, both hosts in order otherwise. -/
def DNSRebindFromQueryMultiA (session : Str) (dcss : SessionStore) :
    Option (SessionStore × List Str) :=
  (findSession dcss session).map (fun st =>
    (dcss,
     if st.FirewalledOnce then [st.ResponseReboundIPAddr]
     else [st.ResponseIPAddr, st.ResponseReboundIPAddr]))

/-- The four wire-level strategy tags; AppConfig.RebindingFn is always one
of the four functions of the DNSRebindingStrategy map. -/
inductive StratTag where
  | rr | fs | rd | ma
deriving DecidableEq, Repr

/-- Lookup in the DNSRebindingStrategy map. -/
def tagOfStr (s : Str) : Option StratTag :=
  if s = lit "rr" then some .rr
  else if s = lit "fs" then some .fs
  else if s = lit "rd" then some .rd
  else if s = lit "ma" then some .ma
  else none

/-- Invokes the strategy function selected for this dispatch. -/
def runStrategy : StratTag → Str → SessionStore → Bool → Option (SessionStore × List Str)
  | .rr, session, dcss, _ => DNSRebindFromQueryRoundRobin session dcss
  | .fs, session, dcss, _ => DNSRebindFromQueryFirstThenSecond session dcss
  | .rd, session, dcss, rnd => DNSRebindFromQueryRandom session dcss rnd
  | .ma, session, dcss, _ => DNSRebindFromQueryMultiA session dcss

/-- AppConfig fields consumed by the modelled handlers (the remaining
fields of the Go struct configure listeners and are not needed here). -/
structure AppConfig where
  ResponseIPAddr : Str := []
  RebindingFnTag : StratTag := .fs
  ResponseReboundIPAddrtimeOut : Int := 0
deriving DecidableEq, Repr

/-- Question types the responder distinguishes. -/
inductive QType where
  | A | AAAA | otherQ
deriving DecidableEq, Repr

/-- Wire record types the responder emits. -/
inductive RType where
  | A | AAAA | CNAME
deriving DecidableEq, Repr

/-- One answer record as assembled by the responder and parsed by
dns.NewRR; `rname ttl IN rtype rdata`. -/
structure RR where
  rname : Str
  ttl : Nat
  rtype : RType
  rdata : Str
deriving DecidableEq, Repr

/-- Models the `respond` closure of MakeRebindDNSHandler: an answer that
parses as an IP becomes an A or AAAA record with the given TTL, rejected
on a family/qtype mismatch unless it may be an additional record; any
other answer becomes a CNAME to `<answer>.` with TTL 10. -/
def respond (qtype : QType) (question : Str) (ttl : Nat) (answer : Str)
    (additionalRecord : Bool) : Except Unit RR :=
  match parseIP answer with
  | some address =>
    let recordType := if To4 address = none then RType.AAAA else RType.A
    let isMatch := (recordType = RType.AAAA ∧ qtype = QType.AAAA) ∨
      (recordType = RType.A ∧ qtype = QType.A)
    if isMatch then Except.ok ⟨question, ttl, recordType, answer⟩
    else if additionalRecord then Except.ok ⟨question, ttl, recordType, answer⟩
    else Except.error ()
  | none => Except.ok ⟨question, 10, RType.CNAME, answer ++ lit "."⟩

/-- Serialization step of MakeRebindDNSHandler: a single answer is built
with TTL 0 and no additional-record leeway; a multi-answer response builds
the first record with TTL 10 and the second with TTL 0, both as potential
additional records; the first error aborts. -/
def serializeAnswers (qtype : QType) (qname : Str) (answers : List Str) :
    Except Unit (List RR) :=
  match answers with
  | [a] => (respond qtype qname 0 a false).map (fun r => [r])
  | a0 :: a1 :: _ =>
    match respond qtype qname 10 a0 true with
    | Except.error e => Except.error e
    | Except.ok r0 =>
      match respond qtype qname 0 a1 true with
      | Except.error e => Except.error e
      | Except.ok r1 => Except.ok [r0, r1]
  | [] => Except.ok []

/-- The fresh DNSClientState assembled by the dispatcher before inserting
a new session: first and current query time are the dispatch timestamp,
LastQueryTime stays at the zero time, hosts come from the parsed query. -/
def initialClientState (cfg : AppConfig) (nm : DNSQuery) (now : Int) : DNSClientState :=
  { FirstQueryTime := now, CurrentQueryTime := now,
    ResponseReboundIPAddrtimeOut := cfg.ResponseReboundIPAddrtimeOut,
    ResponseIPAddr := nm.ResponseIPAddr, ResponseReboundIPAddr := nm.ResponseReboundIPAddr }

/-- Timestamp bookkeeping after a successful serialization: both
CurrentQueryTime and LastQueryTime become the per-dispatch timestamp. -/
def updateTimes (dcss : SessionStore) (session : Str) (now : Int) : SessionStore :=
  adjustSession dcss session
    (fun st => { st with CurrentQueryTime := now, LastQueryTime := now })

/-- Models one A/AAAA question through the closure of
MakeRebindDNSHandler.  The result is the updated store and `none` when the
query is dropped without a reply, `some rrs` when a message with the given
answer records is written (`some []` is the empty reply written after a
serialization error).  `rnd` feeds the random strategy; `remoteIgnored`
is the addrInIPAddressList check on the peer address.  dns.NewRR is
assumed to succeed on the well-formed record strings the handler builds. -/
def handleQuestion (cfg : AppConfig) (dcss : SessionStore) (qname : Str) (qtype : QType)
    (now : Int) (rnd : Bool) (remoteIgnored : Bool) : SessionStore × Option (List RR) :=
  if qtype ≠ QType.A ∧ qtype ≠ QType.AAAA then (dcss, some []) else
  if remoteIgnored then (dcss, none) else
  let qnameLower := toLowerStr qname
  if strStartsWith qnameLower (lit "s-") = false then
    match parseIP cfg.ResponseIPAddr with
    | none => (dcss, none)
    | some address =>
      if (To4 address).isSome then (dcss, some [⟨qname, 0, RType.A, cfg.ResponseIPAddr⟩])
      else (dcss, some [⟨qname, 0, RType.AAAA, cfg.ResponseIPAddr⟩])
  else
    match NewDNSQuery qnameLower with
    | (_, some _) => (dcss, none)
    | (nm, none) =>
      let fnTag := (tagOfStr nm.DNSRebindingStrategy).getD cfg.RebindingFnTag
      let keyExists := (findSession dcss nm.Session).isSome
      let dcss1 :=
        if keyExists then dcss
        else setSession dcss nm.Session (initialClientState cfg nm now)
      match runStrategy fnTag nm.Session dcss1 rnd with
      | none => (dcss1, none)
      | some (dcss2, answers) =>
        match serializeAnswers qtype qname answers with
        | Except.error _ => (dcss2, some [])
        | Except.ok rrs => (updateTimes dcss2 nm.Session now, some rrs)

/-- What the HTTP catch-all route does with a request besides reading the
store: hijack the connection through the IPTablesHandler, or serve static
files through the DefaultHeadersHandler file server. -/
inductive CatchAllAction where
  | hijack | staticFiles
deriving DecidableEq, Repr

/-- Models the `/` closure installed by NewHTTPServer: when the Host
header parses as an encoded query whose session exists, whose strategy tag
is `ma`, and whose first query is more than three seconds old, the session
is latched as firewalled and the connection is handed to the packet-filter
hijack; every other request is served static files with the store
untouched. -/
def catchAllHandler (dcss : SessionStore) (host : Str) (now : Int) :
    SessionStore × CatchAllAction :=
  match NewDNSQuery host with
  | (nm, none) =>
    match findSession dcss nm.Session with
    | some st =>
      if nm.DNSRebindingStrategy = lit "ma" then
        if now - st.FirstQueryTime > 3 * 1000000000 then
          (adjustSession dcss nm.Session (fun s => { s with FirewalledOnce := true }),
           CatchAllAction.hijack)
        else (dcss, CatchAllAction.staticFiles)
      else (dcss, CatchAllAction.staticFiles)
    | none => (dcss, CatchAllAction.staticFiles)
  | (_, some _) => (dcss, CatchAllAction.staticFiles)

/-- The mutable fields of HTTPClientInfoHandler, shared by every request
to /clientinfo on the same server. -/
structure HTTPClientInfoHandler where
  IPAddress : Str := []
  Port : Str := []
deriving DecidableEq, Repr

/-- JSON encoding of the handler, as produced by json.Marshal. -/
def clientInfoJSON (h : HTTPClientInfoHandler) : Str :=
  lit "\x7b\"IPAddress\":\"" ++ h.IPAddress ++ lit "\",\"Port\":\"" ++ h.Port ++ lit "\"\x7d"

/-- Models HTTPClientInfoHandler.ServeHTTP: marshals the handler before
updating it (the `emptyResponse` of the Go code), stores the peer address
split on `:` into the shared handler, then answers a GET with the fresh
marshal and any other method with status 400 and the earlier marshal. -/
def clientInfoServeHTTP (h : HTTPClientInfoHandler) (method : Str) (remoteAddr : Str) :
    HTTPClientInfoHandler × Nat × Str :=
  let emptyResponse := clientInfoJSON h
  let splitted := splitOn (lit ":") remoteAddr
  let h1 : HTTPClientInfoHandler :=
    { IPAddress := splitted.headD [], Port := (splitted.drop 1).headD [] }
  let clientInfoResponse := clientInfoJSON h1
  if method = lit "GET" then (h1, 200, clientInfoResponse)
  else (h1, 400, emptyResponse)

/-- One store-affecting server event: a DNS dispatch or an HTTP catch-all
request (ExpireOldEntries sweeps are treated separately, since they remove
entries rather than mutate them). -/
inductive ServerStep where
  | dns (qname : Str) (qtype : QType) (now : Int) (rnd : Bool) (ignored : Bool)
  | http (host : Str) (now : Int)

/-- Effect of one server event on the session store. -/
def applyStep (cfg : AppConfig) (dcss : SessionStore) : ServerStep → SessionStore
  | .dns qname qtype now rnd ignored => (handleQuestion cfg dcss qname qtype now rnd ignored).1
  | .http host now => (catchAllHandler dcss host now).1

/-- Effect of a sequence of server events on the session store. -/
def applyTrace (cfg : AppConfig) (dcss : SessionStore) (tr : List ServerStep) : SessionStore :=
  tr.foldl (applyStep cfg) dcss

/-- Shared concrete configuration for the scenario theorems: public IP
203.0.113.5, default strategy first-then-second, 30 second rebind
timeout. -/
def testConfig : AppConfig :=
  { ResponseIPAddr := lit "203.0.113.5", RebindingFnTag := .fs,
    ResponseReboundIPAddrtimeOut := 30 }


/-! Store lemmas shared by the claim theorems. -/

theorem findSession_setSession (s : SessionStore) (key : Str) (v : DNSClientState) (k' : Str) :
    findSession (setSession s key v) k' = if key = k' then some v else findSession s k' := by
  induction s with
  | nil => simp [setSession, findSession]
  | cons p rest ih =>
    obtain ⟨k0, w⟩ := p
    by_cases hk : k0 = key
    · subst hk
      simp only [setSession, if_pos rfl, findSession]
      split <;> simp_all [findSession]
    · simp only [setSession, if_neg hk, findSession]
      rw [ih]
      by_cases h1 : k0 = k' <;> by_cases h2 : key = k' <;> simp_all

theorem findSession_adjustSession (s : SessionStore) (key : Str)
    (f : DNSClientState → DNSClientState) (k' : Str) :
    findSession (adjustSession s key f) k' =
      if key = k' then (findSession s k').map f else findSession s k' := by
  induction s with
  | nil => simp [adjustSession, findSession]
  | cons p rest ih =>
    obtain ⟨k0, w⟩ := p
    by_cases hk : k0 = key
    · subst hk
      simp only [adjustSession, if_pos rfl, findSession]
      split <;> simp_all [findSession]
    · simp only [adjustSession, if_neg hk, findSession]
      rw [ih]
      by_cases h1 : k0 = k' <;> by_cases h2 : key = k' <;> simp_all

theorem findSession_expire_of_zero (s : SessionStore) (k : Str) (st : DNSClientState)
    (h : findSession s k = some st) (hz : st.LastQueryTime = 0) (t d : Int) :
    findSession (ExpireOldEntries s t d) k = some st := by
  induction s with
  | nil => simp [findSession] at h
  | cons p rest ih =>
    obtain ⟨k0, w⟩ := p
    simp only [findSession] at h
    by_cases hk : k0 = k
    · subst hk
      rw [if_pos rfl] at h
      have hw : w = st := Option.some.inj h
      have hcond : ¬ (w.LastQueryTime ≠ 0 ∧ t - w.LastQueryTime > d) := by
        rw [hw]; simp [hz]
      simp only [ExpireOldEntries, if_neg hcond, findSession, if_pos rfl]
      exact h
    · rw [if_neg hk] at h
      have ihr := ih h
      simp only [ExpireOldEntries]
      split
      · exact ihr
      · simp [findSession, hk, ihr]

theorem mem_of_mem_expire (s : SessionStore) (t d : Int) (p : Str × DNSClientState)
    (h : p ∈ ExpireOldEntries s t d) : p ∈ s := by
  induction s with
  | nil => simp [ExpireOldEntries] at h
  | cons q rest ih =>
    obtain ⟨k0, w⟩ := q
    simp only [ExpireOldEntries] at h
    split at h
    · exact List.mem_cons_of_mem _ (ih h)
    · rcases List.mem_cons.mp h with h0 | h1
      · exact List.mem_cons.mpr (Or.inl h0)
      · exact List.mem_cons_of_mem _ (ih h1)

theorem findSession_expireFold_of_zero (sweeps : List (Int × Int)) (s : SessionStore)
    (k : Str) (st : DNSClientState)
    (h : findSession s k = some st) (hz : st.LastQueryTime = 0) :
    findSession (sweeps.foldl (fun a p => ExpireOldEntries a p.1 p.2) s) k = some st := by
  induction sweeps generalizing s with
  | nil => exact h
  | cons sw rest ih =>
    exact ih (ExpireOldEntries s sw.1 sw.2) (findSession_expire_of_zero s k st h hz sw.1 sw.2)

/-- All session fields except the round-robin index survive any strategy
invocation, for every key in the store. -/
theorem runStrategy_preserve (tag : StratTag) (k : Str) (s : SessionStore) (rnd : Bool)
    (s' : SessionStore) (ans : List Str)
    (h : runStrategy tag k s rnd = some (s', ans)) (k' : Str) (st : DNSClientState)
    (hf : findSession s k' = some st) :
    ∃ st', findSession s' k' = some st' ∧
      st'.FirstQueryTime = st.FirstQueryTime ∧ st'.LastQueryTime = st.LastQueryTime ∧
      st'.CurrentQueryTime = st.CurrentQueryTime ∧ st'.ResponseIPAddr = st.ResponseIPAddr ∧
      st'.ResponseReboundIPAddr = st.ResponseReboundIPAddr ∧
      st'.FirewalledOnce = st.FirewalledOnce ∧
      st'.ResponseReboundIPAddrtimeOut = st.ResponseReboundIPAddrtimeOut := by
  cases tag with
  | fs =>
    simp only [runStrategy, DNSRebindFromQueryFirstThenSecond] at h
    rcases hx : findSession s k with _ | stk <;> rw [hx] at h
    · simp at h
    · simp only [Option.map_some'] at h
      obtain ⟨h1, -⟩ := Prod.mk.inj (Option.some.inj h)
      subst h1
      exact ⟨st, hf, rfl, rfl, rfl, rfl, rfl, rfl, rfl⟩
  | rd =>
    simp only [runStrategy, DNSRebindFromQueryRandom] at h
    rcases hx : findSession s k with _ | stk <;> rw [hx] at h
    · simp at h
    · simp only [Option.map_some'] at h
      obtain ⟨h1, -⟩ := Prod.mk.inj (Option.some.inj h)
      subst h1
      exact ⟨st, hf, rfl, rfl, rfl, rfl, rfl, rfl, rfl⟩
  | ma =>
    simp only [runStrategy, DNSRebindFromQueryMultiA] at h
    rcases hx : findSession s k with _ | stk <;> rw [hx] at h
    · simp at h
    · simp only [Option.map_some'] at h
      obtain ⟨h1, -⟩ := Prod.mk.inj (Option.some.inj h)
      subst h1
      exact ⟨st, hf, rfl, rfl, rfl, rfl, rfl, rfl, rfl⟩
  | rr =>
    simp only [runStrategy, DNSRebindFromQueryRoundRobin] at h
    rcases hx : findSession s k with _ | stk <;> rw [hx] at h
    · simp at h
    · simp only [Option.map_some'] at h
      obtain ⟨h1, -⟩ := Prod.mk.inj (Option.some.inj h)
      rw [← h1, findSession_adjustSession]
      by_cases hkk : k = k'
      · subst hkk
        rw [if_pos rfl, hf]
        simp only [Option.map_some']
        exact ⟨_, rfl, rfl, rfl, rfl, rfl, rfl, rfl, rfl⟩
      · rw [if_neg hkk, hf]
        exact ⟨st, rfl, rfl, rfl, rfl, rfl, rfl, rfl, rfl⟩

/-- Inserting a fresh session (the get-or-create step of the dispatcher)
does not disturb the binding of a key that is already present. -/
theorem findSession_insert_branch (dcss : SessionStore) (sess : Str) (v : DNSClientState)
    (k : Str) (st : DNSClientState) (hf : findSession dcss k = some st) :
    findSession (if (findSession dcss sess).isSome then dcss
                 else setSession dcss sess v) k = some st := by
  split
  · exact hf
  · rename_i hcond
    have hnone : findSession dcss sess = none := by
      cases hx : findSession dcss sess
      · rfl
      · rw [hx] at hcond; simp at hcond
    rw [findSession_setSession]
    by_cases h : sess = k
    · subst h; rw [hnone] at hf; cases hf
    · rw [if_neg h]; exact hf

/-- A DNS dispatch never clears a latched FirewalledOnce flag and never
changes the rebound target of a latched session. -/
theorem handleQuestion_flag_preserve (cfg : AppConfig) (dcss : SessionStore) (qname : Str)
    (qtype : QType) (now : Int) (rnd ign : Bool) (k : Str) (st : DNSClientState)
    (hf : findSession dcss k = some st) (hfw : st.FirewalledOnce = true) :
    ∃ st', findSession (handleQuestion cfg dcss qname qtype now rnd ign).1 k = some st' ∧
      st'.FirewalledOnce = true ∧ st'.ResponseReboundIPAddr = st.ResponseReboundIPAddr := by
  simp only [handleQuestion]
  split
  case isTrue => exact ⟨st, hf, hfw, rfl⟩
  split
  case isTrue => exact ⟨st, hf, hfw, rfl⟩
  split
  case isTrue =>
    split
    case h_1 => exact ⟨st, hf, hfw, rfl⟩
    case h_2 => split <;> exact ⟨st, hf, hfw, rfl⟩
  case isFalse =>
    split
    case h_1 => exact ⟨st, hf, hfw, rfl⟩
    case h_2 =>
      rename_i nm heqp
      split
      case h_1 =>
        exact ⟨st, findSession_insert_branch dcss nm.Session _ k st hf, hfw, rfl⟩
      case h_2 =>
        rename_i dcss2 answers heqs
        have hf1 := findSession_insert_branch dcss nm.Session
          (initialClientState cfg nm now) k st hf
        obtain ⟨st2, hf2, e1, e2, e3, e4, e5, e6, e7⟩ :=
          runStrategy_preserve _ nm.Session _ rnd dcss2 answers heqs k st hf1
        split
        case h_1 => exact ⟨st2, hf2, by rw [e6]; exact hfw, e5⟩
        case h_2 =>
          simp only [updateTimes]
          rw [findSession_adjustSession]
          by_cases h : nm.Session = k
          · rw [if_pos h, hf2]
            simp only [Option.map_some']
            exact ⟨_, rfl, by simpa [e6] using hfw, e5⟩
          · rw [if_neg h]
            exact ⟨st2, hf2, by rw [e6]; exact hfw, e5⟩

/-- An HTTP catch-all request never clears a latched FirewalledOnce flag
and never changes the rebound target of a latched session. -/
theorem catchAll_flag_preserve (dcss : SessionStore) (host : Str) (now : Int)
    (k : Str) (st : DNSClientState)
    (hf : findSession dcss k = some st) (hfw : st.FirewalledOnce = true) :
    ∃ st', findSession (catchAllHandler dcss host now).1 k = some st' ∧
      st'.FirewalledOnce = true ∧ st'.ResponseReboundIPAddr = st.ResponseReboundIPAddr := by
  simp only [catchAllHandler]
  split
  case h_1 =>
    rename_i nm heqp
    split
    case h_1 =>
      split
      case isTrue =>
        split
        case isTrue =>
          rw [findSession_adjustSession]
          by_cases h : nm.Session = k
          · rw [if_pos h, hf]
            simp only [Option.map_some']
            exact ⟨_, rfl, rfl, rfl⟩
          · rw [if_neg h]
            exact ⟨st, hf, hfw, rfl⟩
        case isFalse => exact ⟨st, hf, hfw, rfl⟩
      case isFalse => exact ⟨st, hf, hfw, rfl⟩
    case h_2 => exact ⟨st, hf, hfw, rfl⟩
  case h_2 => exact ⟨st, hf, hfw, rfl⟩

/-- One server event (DNS dispatch or HTTP catch-all) preserves the
latch. -/
theorem applyStep_flag_preserve (cfg : AppConfig) (dcss : SessionStore) (step : ServerStep)
    (k : Str) (st : DNSClientState)
    (hf : findSession dcss k = some st) (hfw : st.FirewalledOnce = true) :
    ∃ st', findSession (applyStep cfg dcss step) k = some st' ∧
      st'.FirewalledOnce = true ∧ st'.ResponseReboundIPAddr = st.ResponseReboundIPAddr := by
  cases step with
  | dns qname qtype now rnd ignored =>
    exact handleQuestion_flag_preserve cfg dcss qname qtype now rnd ignored k st hf hfw
  | http host now =>
    exact catchAll_flag_preserve dcss host now k st hf hfw

/-- Any sequence of server events preserves the latch. -/
theorem applyTrace_flag_preserve (cfg : AppConfig) (tr : List ServerStep)
    (dcss : SessionStore) (k : Str) (st : DNSClientState)
    (hf : findSession dcss k = some st) (hfw : st.FirewalledOnce = true) :
    ∃ st', findSession (applyTrace cfg dcss tr) k = some st' ∧
      st'.FirewalledOnce = true ∧ st'.ResponseReboundIPAddr = st.ResponseReboundIPAddr := by
  induction tr generalizing dcss st with
  | nil => exact ⟨st, hf, hfw, rfl⟩
  | cons step rest ih =>
    obtain ⟨st1, hf1, hfw1, hrb1⟩ := applyStep_flag_preserve cfg dcss step k st hf hfw
    obtain ⟨st2, hf2, hfw2, hrb2⟩ := ih (applyStep cfg dcss step) st1 hf1 hfw1
    exact ⟨st2, hf2, hfw2, by rw [hrb2, hrb1]⟩

/-! Claim theorems. -/

/-- C1: the multi-A strategy answers exactly [rebound_target] for a stored
session whose firewalled_once flag is set and [attacker_ip, rebound_target]
in that order when it is not set; no server event (DNS dispatch or HTTP
catch-all) ever clears a set flag, so after any further event sequence an
ma query for that session still answers exactly the session's rebound
target; and an expiry sweep only removes entries, never rewriting a
surviving one. -/
theorem multiA_firewall_latch :
    (∀ (dcss : SessionStore) (k : Str) (st : DNSClientState),
      findSession dcss k = some st → st.FirewalledOnce = true →
      DNSRebindFromQueryMultiA k dcss = some (dcss, [st.ResponseReboundIPAddr])) ∧
    (∀ (dcss : SessionStore) (k : Str) (st : DNSClientState),
      findSession dcss k = some st → st.FirewalledOnce = false →
      DNSRebindFromQueryMultiA k dcss =
        some (dcss, [st.ResponseIPAddr, st.ResponseReboundIPAddr])) ∧
    (∀ (cfg : AppConfig) (tr : List ServerStep) (dcss : SessionStore) (k : Str)
      (st : DNSClientState),
      findSession dcss k = some st → st.FirewalledOnce = true →
      DNSRebindFromQueryMultiA k (applyTrace cfg dcss tr) =
        some (applyTrace cfg dcss tr, [st.ResponseReboundIPAddr])) ∧
    (∀ (dcss : SessionStore) (t d : Int) (p : Str × DNSClientState),
      p ∈ ExpireOldEntries dcss t d → p ∈ dcss) := by
  refine ⟨?_, ?_, ?_, ?_⟩
  · intro dcss k st hf hfw
    simp [DNSRebindFromQueryMultiA, hf, hfw]
  · intro dcss k st hf hfw
    simp [DNSRebindFromQueryMultiA, hf, hfw]
  · intro cfg tr dcss k st hf hfw
    obtain ⟨st', hf', hfw', hrb'⟩ := applyTrace_flag_preserve cfg tr dcss k st hf hfw
    simp [DNSRebindFromQueryMultiA, hf', hfw', hrb']
  · intro dcss t d p h
    exact mem_of_mem_expire dcss t d p h

/-- Witness for C1 at a concrete latched and a concrete unlatched
session. -/
theorem multiA_firewall_latch_witness :
    DNSRebindFromQueryMultiA (lit "m1")
      [(lit "m1", { ResponseIPAddr := lit "192.168.0.1",
                    ResponseReboundIPAddr := lit "127.0.0.1", FirewalledOnce := true })] =
      some ([(lit "m1", { ResponseIPAddr := lit "192.168.0.1",
                          ResponseReboundIPAddr := lit "127.0.0.1", FirewalledOnce := true })],
            [lit "127.0.0.1"]) ∧
    DNSRebindFromQueryMultiA (lit "m2")
      [(lit "m2", { ResponseIPAddr := lit "192.168.0.1",
                    ResponseReboundIPAddr := lit "127.0.0.1" })] =
      some ([(lit "m2", { ResponseIPAddr := lit "192.168.0.1",
                          ResponseReboundIPAddr := lit "127.0.0.1" })],
            [lit "192.168.0.1", lit "127.0.0.1"]) := by
  constructor
  · exact multiA_firewall_latch.1 _ (lit "m1")
      { ResponseIPAddr := lit "192.168.0.1", ResponseReboundIPAddr := lit "127.0.0.1",
        FirewalledOnce := true } (by decide) rfl
  · exact multiA_firewall_latch.2.1 _ (lit "m2")
      { ResponseIPAddr := lit "192.168.0.1", ResponseReboundIPAddr := lit "127.0.0.1" }
      (by decide) rfl

/-- C2: the HTTP catch-all hijacks (after latching firewalled_once) exactly
when the Host header parses as an encoded query whose session is stored,
whose strategy tag is ma, and whose first query lies more than three
seconds in the past; in every other case it serves static files and leaves
the store unchanged. -/
theorem catchall_ma_trigger (dcss : SessionStore) (host : Str) (now : Int) :
    ((catchAllHandler dcss host now).2 = CatchAllAction.hijack ↔
      ∃ st, (NewDNSQuery host).2 = none ∧
        findSession dcss (NewDNSQuery host).1.Session = some st ∧
        (NewDNSQuery host).1.DNSRebindingStrategy = lit "ma" ∧
        now - st.FirstQueryTime > 3 * 1000000000) ∧
    ((catchAllHandler dcss host now).2 = CatchAllAction.hijack →
      (catchAllHandler dcss host now).1 =
        adjustSession dcss (NewDNSQuery host).1.Session
          (fun s => { s with FirewalledOnce := true })) ∧
    ((catchAllHandler dcss host now).2 = CatchAllAction.staticFiles →
      (catchAllHandler dcss host now).1 = dcss) := by
  rcases hq : NewDNSQuery host with ⟨nm, oe⟩
  cases oe with
  | some e =>
    have hval : catchAllHandler dcss host now = (dcss, CatchAllAction.staticFiles) := by
      simp only [catchAllHandler, hq]
    rw [hval]
    refine ⟨?_, fun h => by simp at h, fun _ => rfl⟩
    constructor
    · intro h; simp at h
    · rintro ⟨st, hnone, -, -, -⟩
      cases hnone
  | none =>
    rcases hfs : findSession dcss nm.Session with _ | st0
    · have hval : catchAllHandler dcss host now = (dcss, CatchAllAction.staticFiles) := by
        simp only [catchAllHandler, hq, hfs]
      rw [hval]
      refine ⟨?_, fun h => by simp at h, fun _ => rfl⟩
      constructor
      · intro h; simp at h
      · rintro ⟨st, -, hst, -, -⟩
        cases hst
    · by_cases hma : nm.DNSRebindingStrategy = lit "ma"
      · by_cases ht : now - st0.FirstQueryTime > 3 * 1000000000
        · have hval : catchAllHandler dcss host now =
              (adjustSession dcss nm.Session (fun s => { s with FirewalledOnce := true }),
               CatchAllAction.hijack) := by
            simp only [catchAllHandler, hq, hfs]
            rw [if_pos hma, if_pos ht]
          rw [hval]
          exact ⟨⟨fun _ => ⟨st0, rfl, rfl, hma, ht⟩, fun _ => rfl⟩,
                 fun _ => rfl, fun h => by simp at h⟩
        · have hval : catchAllHandler dcss host now = (dcss, CatchAllAction.staticFiles) := by
            simp only [catchAllHandler, hq, hfs]
            rw [if_pos hma, if_neg ht]
          rw [hval]
          refine ⟨?_, fun h => by simp at h, fun _ => rfl⟩
          constructor
          · intro h; simp at h
          · rintro ⟨st, -, hst, -, ht'⟩
            obtain rfl : st0 = st := by injection hst
            exact absurd ht' ht
      · have hval : catchAllHandler dcss host now = (dcss, CatchAllAction.staticFiles) := by
          simp only [catchAllHandler, hq, hfs]
          rw [if_neg hma]
        rw [hval]
        refine ⟨?_, fun h => by simp at h, fun _ => rfl⟩
        constructor
        · intro h; simp at h
        · rintro ⟨st, -, -, hst, -⟩
          exact absurd hst hma

/-- Witness for C2: a stored ma session queried 4.1 seconds after its
first query is hijacked and latched; a fresh host that does not parse is
served static files with the store unchanged. -/
theorem catchall_ma_trigger_witness :
    (catchAllHandler
        [(lit "m9", { FirstQueryTime := 1000000000000, CurrentQueryTime := 1000000000000,
                      LastQueryTime := 1000000000000,
                      ResponseIPAddr := lit "192.168.0.1",
                      ResponseReboundIPAddr := lit "127.0.0.1",
                      ResponseReboundIPAddrtimeOut := 30 })]
        (lit "s-c0a80001.7f000001-m9-ma-e.a.tld") 1004100000000).2 =
      CatchAllAction.hijack ∧
    (catchAllHandler
        [(lit "m9", { FirstQueryTime := 1000000000000, CurrentQueryTime := 1000000000000,
                      LastQueryTime := 1000000000000,
                      ResponseIPAddr := lit "192.168.0.1",
                      ResponseReboundIPAddr := lit "127.0.0.1",
                      ResponseReboundIPAddrtimeOut := 30 })]
        (lit "s-c0a80001.7f000001-m9-ma-e.a.tld") 1004100000000).1 =
      [(lit "m9", { FirstQueryTime := 1000000000000, CurrentQueryTime := 1000000000000,
                    LastQueryTime := 1000000000000,
                    ResponseIPAddr := lit "192.168.0.1",
                    ResponseReboundIPAddr := lit "127.0.0.1",
                    ResponseReboundIPAddrtimeOut := 30, FirewalledOnce := true })] ∧
    (catchAllHandler [] (lit "plain.example.") 77).1 = [] := by
  have h := catchall_ma_trigger
    [(lit "m9", { FirstQueryTime := 1000000000000, CurrentQueryTime := 1000000000000,
                  LastQueryTime := 1000000000000,
                  ResponseIPAddr := lit "192.168.0.1",
                  ResponseReboundIPAddr := lit "127.0.0.1",
                  ResponseReboundIPAddrtimeOut := 30 })]
    (lit "s-c0a80001.7f000001-m9-ma-e.a.tld") 1004100000000
  have hh := h.1.mpr
    ⟨{ FirstQueryTime := 1000000000000, CurrentQueryTime := 1000000000000,
       LastQueryTime := 1000000000000,
       ResponseIPAddr := lit "192.168.0.1",
       ResponseReboundIPAddr := lit "127.0.0.1",
       ResponseReboundIPAddrtimeOut := 30 },
     by decide, by decide, by decide, by decide⟩
  refine ⟨hh, ?_, (catchall_ma_trigger [] (lit "plain.example.") 77).2.2 (by decide)⟩
  rw [h.2.1 hh]
  decide

/-- C3 counterexample: with a 30 second rebind timeout, a second fs query
arriving 40 seconds after the first — well past the timeout — is answered
with the rebound target 127.0.0.1, not with the attacker address, because
the responder stored the same timestamp into CurrentQueryTime and
LastQueryTime after the first dispatch. -/
theorem fs_late_query_counterexample :
    (handleQuestion testConfig [] (lit "s-c0a80001.7f000001-abc-fs-e.a.tld") QType.A
        1000000000000 true false).2 =
      some [⟨lit "s-c0a80001.7f000001-abc-fs-e.a.tld", 0, RType.A, lit "192.168.0.1"⟩] ∧
    1040000000000 - 1000000000000 > 1000000000 * testConfig.ResponseReboundIPAddrtimeOut ∧
    (handleQuestion testConfig
        (handleQuestion testConfig [] (lit "s-c0a80001.7f000001-abc-fs-e.a.tld") QType.A
          1000000000000 true false).1
        (lit "s-c0a80001.7f000001-abc-fs-e.a.tld") QType.A 1040000000000 true false).2 =
      some [⟨lit "s-c0a80001.7f000001-abc-fs-e.a.tld", 0, RType.A, lit "127.0.0.1"⟩] ∧
    (lit "127.0.0.1" : Str) ≠ lit "192.168.0.1" := by
  refine ⟨by decide, by decide, by decide, by decide⟩

/-- C3 amended: the fs strategy answers [rebound_target] when
current − last is under the timeout and [attacker_ip] otherwise; since the
responder writes the same per-dispatch timestamp into both fields after
every answered dispatch, a stored session with current = last (any session
already answered) is answered with the rebound target for every positive
timeout, no matter how much real time has passed since the previous
query. -/
theorem fs_strategy_amended :
    (∀ (dcss : SessionStore) (k : Str) (st : DNSClientState),
      findSession dcss k = some st →
      DNSRebindFromQueryFirstThenSecond k dcss =
        some (dcss,
          if st.CurrentQueryTime - st.LastQueryTime <
              1000000000 * st.ResponseReboundIPAddrtimeOut
          then [st.ResponseReboundIPAddr] else [st.ResponseIPAddr])) ∧
    (∀ (dcss : SessionStore) (k : Str) (st : DNSClientState),
      findSession dcss k = some st →
      st.CurrentQueryTime = st.LastQueryTime →
      0 < st.ResponseReboundIPAddrtimeOut →
      DNSRebindFromQueryFirstThenSecond k dcss = some (dcss, [st.ResponseReboundIPAddr])) ∧
    (∀ (cfg : AppConfig) (dcss : SessionStore) (qname : Str) (qtype : QType) (now : Int)
      (rnd : Bool) (nm : DNSQuery) (store' : SessionStore) (rrs : List RR)
      (st' : DNSClientState),
      strStartsWith (toLowerStr qname) (lit "s-") = true →
      NewDNSQuery (toLowerStr qname) = (nm, none) →
      handleQuestion cfg dcss qname qtype now rnd false = (store', some rrs) →
      rrs ≠ [] →
      findSession store' nm.Session = some st' →
      st'.CurrentQueryTime = now ∧ st'.LastQueryTime = now) := by
  refine ⟨?_, ?_, ?_⟩
  · intro dcss k st hf
    simp only [DNSRebindFromQueryFirstThenSecond, hf, Option.map_some']
  · intro dcss k st hf heq hpos
    simp only [DNSRebindFromQueryFirstThenSecond, hf, Option.map_some', heq]
    rw [if_pos]
    omega
  · intro cfg dcss qname qtype now rnd nm store' rrs st' hpre hparse hres hne hfind
    simp only [handleQuestion, hpre, hparse, Bool.true_eq_false, if_false,
      Bool.false_eq_true, ite_false] at hres
    split at hres
    · obtain ⟨-, h2⟩ := Prod.mk.inj hres
      exact absurd (Option.some.inj h2).symm hne
    split at hres
    · cases (Prod.mk.inj hres).2
    · rename_i dcss2 answers heqs
      split at hres
      · obtain ⟨h1, h2⟩ := Prod.mk.inj hres
        obtain rfl : rrs = [] := (Option.some.inj h2).symm
        exact absurd rfl hne
      · obtain ⟨h1, h2⟩ := Prod.mk.inj hres
        rw [← h1] at hfind
        simp only [updateTimes, findSession_adjustSession, if_pos rfl] at hfind
        rcases hx : findSession dcss2 nm.Session with _ | st2
        · rw [hx] at hfind; cases hfind
        · rw [hx] at hfind
          simp only [Option.map_some'] at hfind
          obtain rfl : _ = st' := Option.some.inj hfind
          exact ⟨rfl, rfl⟩

/-- Witness for C3's amended theorem: a session whose stored timestamps
coincide is answered with the rebound target. -/
theorem fs_strategy_amended_witness :
    DNSRebindFromQueryFirstThenSecond (lit "abc")
      [(lit "abc", { FirstQueryTime := 5, LastQueryTime := 9, CurrentQueryTime := 9,
                     ResponseIPAddr := lit "192.168.0.1",
                     ResponseReboundIPAddr := lit "127.0.0.1",
                     ResponseReboundIPAddrtimeOut := 30 })] =
      some ([(lit "abc", { FirstQueryTime := 5, LastQueryTime := 9, CurrentQueryTime := 9,
                           ResponseIPAddr := lit "192.168.0.1",
                           ResponseReboundIPAddr := lit "127.0.0.1",
                           ResponseReboundIPAddrtimeOut := 30 })],
            [lit "127.0.0.1"]) :=
  fs_strategy_amended.2.1
    [(lit "abc", { FirstQueryTime := 5, LastQueryTime := 9, CurrentQueryTime := 9,
                   ResponseIPAddr := lit "192.168.0.1",
                   ResponseReboundIPAddr := lit "127.0.0.1",
                   ResponseReboundIPAddrtimeOut := 30 })]
    (lit "abc")
    { FirstQueryTime := 5, LastQueryTime := 9, CurrentQueryTime := 9,
      ResponseIPAddr := lit "192.168.0.1", ResponseReboundIPAddr := lit "127.0.0.1",
      ResponseReboundIPAddrtimeOut := 30 }
    (by decide) rfl (by decide)

/-- C4: the round-robin strategy advances the persisted index along
0→1→2→1→…, answering the attacker address at index 1 and the rebound
target at index 2; three successive queries of the concrete rr scenario
answer 10.0.0.1, 10.0.0.2, 10.0.0.1. -/
theorem rr_strategy_cycle :
    (∀ (dcss : SessionStore) (k : Str) (st : DNSClientState),
      findSession dcss k = some st → st.LastResponseReboundIPAddr ≤ 2 →
      DNSRebindFromQueryRoundRobin k dcss =
        some (adjustSession dcss k (fun s => { s with LastResponseReboundIPAddr :=
                if st.LastResponseReboundIPAddr = 0 then 1
                else if st.LastResponseReboundIPAddr = 1 then 2 else 1 }),
              [if st.LastResponseReboundIPAddr = 1 then st.ResponseReboundIPAddr
               else st.ResponseIPAddr])) ∧
    ((handleQuestion testConfig [] (lit "s-0a000001.0a000002-xyz-rr-e.a.tld") QType.A
        1000000000000 true false).2 =
      some [⟨lit "s-0a000001.0a000002-xyz-rr-e.a.tld", 0, RType.A, lit "10.0.0.1"⟩] ∧
     (handleQuestion testConfig
        (handleQuestion testConfig [] (lit "s-0a000001.0a000002-xyz-rr-e.a.tld") QType.A
          1000000000000 true false).1
        (lit "s-0a000001.0a000002-xyz-rr-e.a.tld") QType.A 1001000000000 true false).2 =
      some [⟨lit "s-0a000001.0a000002-xyz-rr-e.a.tld", 0, RType.A, lit "10.0.0.2"⟩] ∧
     (handleQuestion testConfig
        (handleQuestion testConfig
          (handleQuestion testConfig [] (lit "s-0a000001.0a000002-xyz-rr-e.a.tld") QType.A
            1000000000000 true false).1
          (lit "s-0a000001.0a000002-xyz-rr-e.a.tld") QType.A 1001000000000 true false).1
        (lit "s-0a000001.0a000002-xyz-rr-e.a.tld") QType.A 1002000000000 true false).2 =
      some [⟨lit "s-0a000001.0a000002-xyz-rr-e.a.tld", 0, RType.A, lit "10.0.0.1"⟩]) := by
  constructor
  · intro dcss k st hf hle
    have h3 : st.LastResponseReboundIPAddr = 0 ∨ st.LastResponseReboundIPAddr = 1 ∨
        st.LastResponseReboundIPAddr = 2 := by omega
    rcases h3 with h | h | h <;>
      simp only [DNSRebindFromQueryRoundRobin, hf, Option.map_some', h] <;> rfl
  · exact ⟨by decide, by decide, by decide⟩

/-- Witness for C4 at a fresh session (index 0): the index becomes 1 and
the answer is the attacker address. -/
theorem rr_strategy_cycle_witness :
    DNSRebindFromQueryRoundRobin (lit "xyz")
      [(lit "xyz", { ResponseIPAddr := lit "10.0.0.1",
                     ResponseReboundIPAddr := lit "10.0.0.2" })] =
      some ([(lit "xyz", { ResponseIPAddr := lit "10.0.0.1",
                           ResponseReboundIPAddr := lit "10.0.0.2",
                           LastResponseReboundIPAddr := 1 })],
            [lit "10.0.0.1"]) := by
  have h := rr_strategy_cycle.1
    [(lit "xyz", { ResponseIPAddr := lit "10.0.0.1",
                   ResponseReboundIPAddr := lit "10.0.0.2" })]
    (lit "xyz")
    { ResponseIPAddr := lit "10.0.0.1", ResponseReboundIPAddr := lit "10.0.0.2" }
    (by decide) (by decide)
  rw [h]
  decide

/-- Helper for the TTL analysis: a record built with the additional-record
leeway carries the requested TTL when the answer is an IP and TTL 10 when
it is serialized as a CNAME. -/
theorem respond_ttl_additional (qtype : QType) (qname : Str) (t : Nat) (a : Str) (r : RR)
    (h : respond qtype qname t a true = Except.ok r) :
    r.ttl = (if (parseIP a).isSome then t else 10) := by
  rcases hx : parseIP a with _ | addr
  · simp only [respond, hx] at h
    obtain rfl := Except.ok.inj h
    simp [hx]
  · simp only [respond, hx] at h
    split at h <;> split at h <;> (try split at h) <;>
      first
      | (simp only [Except.ok.injEq] at h; subst h; simp [hx])
      | exact Except.noConfusion h

/-- C5 counterexample: the concrete ma query with rebound target
`localhost` is answered with two records whose TTLs are 10 and 10 — the
second record, a CNAME, does not get TTL 0 as the claim requires. -/
theorem ttl_policy_counterexample :
    (handleQuestion testConfig [] (lit "s-c0a80001.localhost-m1-ma-e.a.tld") QType.A
        1000000000000 true false).2 =
      some [⟨lit "s-c0a80001.localhost-m1-ma-e.a.tld", 10, RType.A, lit "192.168.0.1"⟩,
            ⟨lit "s-c0a80001.localhost-m1-ma-e.a.tld", 10, RType.CNAME, lit "localhost."⟩] ∧
    ((handleQuestion testConfig [] (lit "s-c0a80001.localhost-m1-ma-e.a.tld") QType.A
        1000000000000 true false).2.getD []).map RR.ttl ≠ [10, 0] := by
  exact ⟨by decide, by decide⟩

/-- C5 amended: in a multi-answer response the first record has TTL 10 and
the second has TTL 0 exactly when its answer parses as an IP; an answer
that does not parse as an IP is serialized as a CNAME to `<answer>.` with
TTL 10 in every position; a single-answer IP response has TTL 0. -/
theorem ttl_policy_amended :
    (∀ (qtype : QType) (qname a : Str) (r : RR),
      (parseIP a).isSome → respond qtype qname 0 a false = Except.ok r → r.ttl = 0) ∧
    (∀ (qtype : QType) (qname : Str) (t : Nat) (a : Str) (b : Bool),
      parseIP a = none →
      respond qtype qname t a b = Except.ok ⟨qname, 10, RType.CNAME, a ++ lit "."⟩) ∧
    (∀ (qtype : QType) (qname a0 a1 : Str) (rest : List Str) (rrs : List RR),
      serializeAnswers qtype qname (a0 :: a1 :: rest) = Except.ok rrs →
      ∃ r0 r1, rrs = [r0, r1] ∧ r0.ttl = 10 ∧
        r1.ttl = (if (parseIP a1).isSome then 0 else 10)) := by
  refine ⟨?_, ?_, ?_⟩
  · intro qtype qname a r hip hok
    rcases hx : parseIP a with _ | addr
    · rw [hx] at hip; cases hip
    · simp only [respond, hx] at hok
      split at hok <;> split at hok <;> (try split at hok) <;>
        first
        | (simp only [Except.ok.injEq] at hok; subst hok; simp)
        | exact Except.noConfusion hok
  · intro qtype qname t a b hnone
    simp only [respond, hnone]
  · intro qtype qname a0 a1 rest rrs hok
    simp only [serializeAnswers] at hok
    split at hok
    · cases hok
    · rename_i r0 h0
      split at hok
      · cases hok
      · rename_i r1 h1
        obtain rfl := Except.ok.inj hok
        refine ⟨r0, r1, rfl, ?_, ?_⟩
        · have := respond_ttl_additional qtype qname 10 a0 r0 h0
          rcases hx : (parseIP a0).isSome <;> simp [hx] at this <;> exact this
        · exact respond_ttl_additional qtype qname 0 a1 r1 h1

/-- Witness for C5's amended theorem: a CNAME answer gets TTL 10 at any
requested TTL, and the concrete multi-answer serialization of
[192.168.0.1, localhost] has TTLs 10 and 10. -/
theorem ttl_policy_amended_witness :
    respond QType.A (lit "q.example.") 7 (lit "localhost") true =
      Except.ok ⟨lit "q.example.", 10, RType.CNAME, lit "localhost."⟩ ∧
    (∃ r0 r1,
      ([⟨lit "q.example.", 10, RType.A, lit "192.168.0.1"⟩,
        ⟨lit "q.example.", 10, RType.CNAME, lit "localhost."⟩] : List RR) = [r0, r1] ∧
      r0.ttl = 10 ∧ r1.ttl = (if (parseIP (lit "localhost")).isSome then 0 else 10)) := by
  refine ⟨ttl_policy_amended.2.1 QType.A (lit "q.example.") 7 (lit "localhost") true
    (by decide), ?_⟩
  exact ttl_policy_amended.2.2 QType.A (lit "q.example.") (lit "192.168.0.1")
    (lit "localhost") [] _ (by rfl)

/-- C6: an A or AAAA query whose lower-cased name lacks the `s-` prefix is
answered, with the store untouched, by exactly one TTL-0 record whose type
is A when the configured response address is IPv4 and AAAA when it is
IPv6; an unparseable response address drops the query silently. -/
theorem qname_minimization (cfg : AppConfig) (dcss : SessionStore) (qname : Str)
    (qtype : QType) (now : Int) (rnd : Bool)
    (hq : qtype = QType.A ∨ qtype = QType.AAAA)
    (hpre : strStartsWith (toLowerStr qname) (lit "s-") = false) :
    handleQuestion cfg dcss qname qtype now rnd false =
      (dcss,
        match parseIP cfg.ResponseIPAddr with
        | none => none
        | some address =>
          if (To4 address).isSome then some [⟨qname, 0, RType.A, cfg.ResponseIPAddr⟩]
          else some [⟨qname, 0, RType.AAAA, cfg.ResponseIPAddr⟩]) := by
  have hq' : ¬(qtype ≠ QType.A ∧ qtype ≠ QType.AAAA) := by
    rcases hq with h | h <;> simp [h]
  simp only [handleQuestion, if_neg hq', Bool.false_eq_true, if_false]
  rw [if_pos hpre]
  rcases hx : parseIP cfg.ResponseIPAddr with _ | address
  · rfl
  · by_cases hc : (To4 address).isSome <;> simp [hc]

/-- Witness for C6: the minimization probe `tld.` with response address
203.0.113.5 is answered by one A record with TTL 0 and no session is
created. -/
theorem qname_minimization_witness :
    handleQuestion testConfig [] (lit "tld.") QType.A 5 true false =
      ([], some [⟨lit "tld.", 0, RType.A, lit "203.0.113.5"⟩]) := by
  rw [qname_minimization testConfig [] (lit "tld.") QType.A 5 true (Or.inl rfl) (by decide)]
  decide

/-- C7 counterexample: the name with trailing suffix `tld` — three
characters but no dot — is accepted by the codec, although the claim
requires every dotless suffix to be rejected. -/
theorem suffix_rule_counterexample :
    NewDNSQuery (lit "s-c0a80001.7f000001-abc-fs-e.tld") =
      ({ ResponseIPAddr := lit "192.168.0.1", ResponseReboundIPAddr := lit "127.0.0.1",
         Session := lit "abc", DNSRebindingStrategy := lit "fs", Domain := lit ".tld" },
       none) ∧
    (lit "tld").contains '.' = false := by
  exact ⟨by decide, by decide⟩

/-- C7 amended: the codec rejects a suffix only when it is simultaneously
shorter than three characters and free of dots (the source combines the
two tests with a conjunction); a dotless suffix of length at least three,
or a dotted suffix of any length, is accepted. -/
theorem suffix_rule_amended :
    (∀ q : Str, (NewDNSQuery q).2 = some ParseErr.badDomain →
      ∃ part0 suf, splitOn (lit "-e.") ((replaceDoubleDash q).drop 2) = [part0, suf] ∧
        suf.length < 3 ∧ suf.contains '.' = false) ∧
    (NewDNSQuery (lit "s-c0a80001.7f000001-abc-fs-e.a.")).2 = none := by
  constructor
  · intro q h
    simp only [NewDNSQuery] at h
    split at h
    · exact absurd h (by decide)
    split at h
    case h_2 => exact absurd h (by decide)
    rename_i part0 domainSuffix heq
    split at h
    · rename_i hcond
      exact ⟨part0, domainSuffix, heq, hcond.1, hcond.2⟩
    repeat'
      first
      | exact absurd h (by decide)
      | split at h
      | simp at h
  · decide

/-- Witness for C7's amended theorem: the suffix `x` is rejected as a bad
domain, and it is indeed both short and dotless. -/
theorem suffix_rule_amended_witness :
    (NewDNSQuery (lit "s-c0a80001.7f000001-abc-fs-e.x")).2 = some ParseErr.badDomain ∧
    (∃ part0 suf,
      splitOn (lit "-e.")
        ((replaceDoubleDash (lit "s-c0a80001.7f000001-abc-fs-e.x")).drop 2) = [part0, suf] ∧
      suf.length < 3 ∧ suf.contains '.' = false) := by
  refine ⟨by decide, ?_⟩
  exact suffix_rule_amended.1 (lit "s-c0a80001.7f000001-abc-fs-e.x") (by decide)

/-- C8: every listed codec failure mode (missing start tag, missing end
tag, wrong field count, undecodable first-host hex, invalid second host)
returns the zero record alongside its typed error; a dispatch whose
lower-cased name fails to parse leaves the session store exactly as it
was; and on the encoded path (name carrying the `s-` prefix) such a query
is dropped with no reply written. -/
theorem codec_rejection_no_mutation :
    (∀ (q : Str) (rec : DNSQuery) (e : ParseErr), NewDNSQuery q = (rec, some e) →
      (e = ParseErr.noStartTag ∨ e = ParseErr.noEndTag ∨ e = ParseErr.badFieldCount ∨
       e = ParseErr.badHost1Hex ∨ e = ParseErr.badHost2) →
      rec = {}) ∧
    (∀ (cfg : AppConfig) (dcss : SessionStore) (qname : Str) (qtype : QType) (now : Int)
      (rnd ign : Bool),
      ((NewDNSQuery (toLowerStr qname)).2).isSome →
      (handleQuestion cfg dcss qname qtype now rnd ign).1 = dcss) ∧
    (∀ (cfg : AppConfig) (dcss : SessionStore) (qname : Str) (qtype : QType) (now : Int)
      (rnd : Bool),
      (qtype = QType.A ∨ qtype = QType.AAAA) →
      strStartsWith (toLowerStr qname) (lit "s-") = true →
      ((NewDNSQuery (toLowerStr qname)).2).isSome →
      handleQuestion cfg dcss qname qtype now rnd false = (dcss, none)) := by
  refine ⟨?_, ?_, ?_⟩
  · intro q rec e hq hl
    simp only [NewDNSQuery] at hq
    repeat'
      first
      | (obtain ⟨h1, h2⟩ := Prod.mk.inj hq
         first
         | exact h1.symm
         | (obtain rfl := Option.some.inj h2
            rcases hl with h | h | h | h | h <;> cases h)
         | cases h2)
      | split at hq
  · intro cfg dcss qname qtype now rnd ign hp
    simp only [handleQuestion]
    split
    · rfl
    split
    · rfl
    split
    · split
      · rfl
      · split <;> rfl
    · split
      · rfl
      · rename_i nm heqp
        rw [heqp] at hp
        simp at hp
  · intro cfg dcss qname qtype now rnd hq hpre hp
    have hq' : ¬(qtype ≠ QType.A ∧ qtype ≠ QType.AAAA) := by
      rcases hq with h | h <;> simp [h]
    simp only [handleQuestion, if_neg hq', Bool.false_eq_true, if_false]
    rw [if_neg (by simp [hpre])]
    rcases hnm : NewDNSQuery (toLowerStr qname) with ⟨rec, oe⟩
    cases oe with
    | some e => rfl
    | none => rw [hnm] at hp; simp at hp

/-- Witness for C8 at the name `s-zz.…` whose first host hex is
undecodable: the codec returns the zero record, and dispatching the name
against a store with one session leaves the store unchanged and writes no
reply. -/
theorem codec_rejection_no_mutation_witness :
    (NewDNSQuery (lit "s-zz.7f000001-a-fs-e.a.tld")).1 = {} ∧
    handleQuestion testConfig
      [(lit "k", { ResponseIPAddr := lit "10.0.0.1" })]
      (lit "s-zz.7f000001-a-fs-e.a.tld") QType.A 5 true false =
      ([(lit "k", { ResponseIPAddr := lit "10.0.0.1" })], none) := by
  constructor
  · have h := codec_rejection_no_mutation.1 (lit "s-zz.7f000001-a-fs-e.a.tld")
      (NewDNSQuery (lit "s-zz.7f000001-a-fs-e.a.tld")).1 ParseErr.badHost1Hex
      (by decide) (by decide)
    exact h
  · exact codec_rejection_no_mutation.2.2 testConfig
      [(lit "k", { ResponseIPAddr := lit "10.0.0.1" })]
      (lit "s-zz.7f000001-a-fs-e.a.tld") QType.A 5 true (Or.inl rfl) (by decide) (by decide)

/-- C9: the /clientinfo handler answers a GET with the peer's address and
port, but a non-GET request is answered 400 with the JSON marshalled from
the handler state captured before this request — after any earlier request
has populated the shared handler, that body carries the previous peer's
address instead of the empty JSON object the code's own `emptyResponse`
name promises. -/
theorem clientinfo_stale_empty_response :
    (clientInfoServeHTTP {} (lit "GET") (lit "1.2.3.4:1111")).2 =
      (200, clientInfoJSON { IPAddress := lit "1.2.3.4", Port := lit "1111" }) ∧
    (clientInfoServeHTTP
        (clientInfoServeHTTP {} (lit "GET") (lit "1.2.3.4:1111")).1
        (lit "POST") (lit "5.6.7.8:2222")).2 =
      (400, clientInfoJSON { IPAddress := lit "1.2.3.4", Port := lit "1111" }) ∧
    clientInfoJSON { IPAddress := lit "1.2.3.4", Port := lit "1111" } ≠ clientInfoJSON {} := by
  exact ⟨by decide, by decide, by decide⟩

/-- C10: when a dispatch creates a fresh session and then aborts during
answer serialization, the inserted entry stays in the store with first and
current query time set to the dispatch timestamp but a zero last query
time, and no sequence of ExpireOldEntries sweeps, whatever their
durations, ever removes it. -/
theorem orphan_session_never_expires (cfg : AppConfig) (dcss : SessionStore) (qname : Str)
    (qtype : QType) (now : Int) (rnd : Bool) (nm : DNSQuery) (dcss2 : SessionStore)
    (answers : List Str)
    (hq : qtype = QType.A ∨ qtype = QType.AAAA)
    (hpre : strStartsWith (toLowerStr qname) (lit "s-") = true)
    (hparse : NewDNSQuery (toLowerStr qname) = (nm, none))
    (hnew : findSession dcss nm.Session = none)
    (hstrat : runStrategy ((tagOfStr nm.DNSRebindingStrategy).getD cfg.RebindingFnTag)
        nm.Session (setSession dcss nm.Session (initialClientState cfg nm now)) rnd =
      some (dcss2, answers))
    (habort : serializeAnswers qtype qname answers = Except.error ()) :
    handleQuestion cfg dcss qname qtype now rnd false = (dcss2, some []) ∧
    ∃ st, findSession dcss2 nm.Session = some st ∧
      st.FirstQueryTime = now ∧ st.CurrentQueryTime = now ∧ st.LastQueryTime = 0 ∧
      ∀ sweeps : List (Int × Int),
        findSession (sweeps.foldl (fun a p => ExpireOldEntries a p.1 p.2) dcss2)
          nm.Session = some st := by
  constructor
  · have hq' : ¬(qtype ≠ QType.A ∧ qtype ≠ QType.AAAA) := by
      rcases hq with h | h <;> simp [h]
    simp only [handleQuestion, if_neg hq', Bool.false_eq_true, if_false]
    rw [if_neg (by simp [hpre])]
    simp only [hparse, hnew, Option.isSome_none, Bool.false_eq_true, if_false, hstrat, habort]
  · have hfind0 : findSession (setSession dcss nm.Session (initialClientState cfg nm now))
        nm.Session = some (initialClientState cfg nm now) := by
      rw [findSession_setSession, if_pos rfl]
    obtain ⟨st, hf2, e1, e2, e3, e4, e5, e6, e7⟩ :=
      runStrategy_preserve _ nm.Session _ rnd dcss2 answers hstrat nm.Session _ hfind0
    refine ⟨st, hf2, ?_, ?_, ?_, ?_⟩
    · rw [e1]; rfl
    · rw [e3]; rfl
    · rw [e2]; rfl
    · intro sweeps
      exact findSession_expireFold_of_zero sweeps dcss2 nm.Session st hf2 (by rw [e2]; rfl)

/-- Witness for C10: an AAAA question for an fs-encoded name whose single
answer is the IPv4 attacker address aborts serialization; the fresh
session `abc` stays behind with a zero LastQueryTime and survives a
concrete expiry sweep. -/
theorem orphan_session_never_expires_witness :
    handleQuestion testConfig [] (lit "s-c0a80001.7f000001-abc-fs-e.a.tld") QType.AAAA
      1000000000000 true false =
      ([(lit "abc",
         { FirstQueryTime := 1000000000000, CurrentQueryTime := 1000000000000,
           ResponseIPAddr := lit "192.168.0.1", ResponseReboundIPAddr := lit "127.0.0.1",
           ResponseReboundIPAddrtimeOut := 30 })], some []) ∧
    findSession
      (ExpireOldEntries
        [(lit "abc",
          { FirstQueryTime := 1000000000000, CurrentQueryTime := 1000000000000,
            ResponseIPAddr := lit "192.168.0.1", ResponseReboundIPAddr := lit "127.0.0.1",
            ResponseReboundIPAddrtimeOut := 30 })] 9000000000000 1)
      (lit "abc") =
      some { FirstQueryTime := 1000000000000, CurrentQueryTime := 1000000000000,
             ResponseIPAddr := lit "192.168.0.1", ResponseReboundIPAddr := lit "127.0.0.1",
             ResponseReboundIPAddrtimeOut := 30 } := by
  have h := orphan_session_never_expires testConfig [] (lit "s-c0a80001.7f000001-abc-fs-e.a.tld")
    QType.AAAA 1000000000000 true
    { ResponseIPAddr := lit "192.168.0.1", ResponseReboundIPAddr := lit "127.0.0.1",
      Session := lit "abc", DNSRebindingStrategy := lit "fs", Domain := lit ".a.tld" }
    [(lit "abc",
      { FirstQueryTime := 1000000000000, CurrentQueryTime := 1000000000000,
        ResponseIPAddr := lit "192.168.0.1", ResponseReboundIPAddr := lit "127.0.0.1",
        ResponseReboundIPAddrtimeOut := 30 })]
    [lit "192.168.0.1"]
    (Or.inr rfl) (by decide) (by decide) (by decide) (by decide) (by rfl)
  refine ⟨h.1, ?_⟩
  obtain ⟨st, hf, -, -, -, hsw⟩ := h.2
  obtain rfl : st =
      (⟨1000000000000, 0, 1000000000000, lit "192.168.0.1", lit "127.0.0.1", 0, 30, false⟩ :
        DNSClientState) :=
    Option.some.inj (hf.symm.trans (by decide))
  exact hsw [(9000000000000, 1)]
